import Mathlib

/-! Shallow embedding of src/backend/main.py, the OTP lifecycle of the
NGO verification backend. Python dicts are modelled as association
lists with string keys, wall-clock timestamps as integers, and
randomness, clock reads and external send outcomes as explicit
parameters. An exception that escapes a handler uncaught is the
pyError outcome. -/

/-- ASCII whitespace as stripped by Python str.strip and ignored around
the argument of int(). -/
def isPySpace (c : Char) : Bool :=
  c == ' ' || c == '\t' || c == '\n' || c == '\r' || c == '\x0b' || c == '\x0c'

/-- Strip leading and trailing whitespace from a character list. -/
def stripChars (cs : List Char) : List Char :=
  ((cs.dropWhile isPySpace).reverse.dropWhile isPySpace).reverse

/-- Python str.strip().lower() on an ASCII string, the normalization the
handlers apply on both sides of every dataset comparison. -/
def pyNorm (s : String) : List Char :=
  (stripChars s.data).map Char.toLower

/-- Numeric value of a decimal digit string. -/
def natOfDigits (cs : List Char) : Nat :=
  cs.foldl (fun n c => n * 10 + (c.toNat - 48)) 0

/-- Model of Python int(s) on a string: optional surrounding whitespace,
an optional sign, then one or more decimal digits; any other string
raises ValueError, modelled as none. -/
def pyInt (s : String) : Option Int :=
  match stripChars s.data with
  | [] => none
  | '+' :: rest =>
      if !rest.isEmpty && rest.all Char.isDigit then some (natOfDigits rest : Int)
      else none
  | '-' :: rest =>
      if !rest.isEmpty && rest.all Char.isDigit then some (-(natOfDigits rest : Int))
      else none
  | cs =>
      if cs.all Char.isDigit then some (natOfDigits cs : Int) else none

/-- Lookup in a Python dict modelled as an association list. -/
def dictGet {α : Type} : List (String × α) → String → Option α
  | [], _ => none
  | (k', v) :: rest, k => if k' == k then some v else dictGet rest k

/-- Python dict item assignment: overwrite the key in place when it is
present, otherwise append. -/
def dictSet {α : Type} : List (String × α) → String → α → List (String × α)
  | [], k, v => [(k, v)]
  | (k', v') :: rest, k, v =>
      if k' == k then (k, v) :: rest else (k', v') :: dictSet rest k v

/-- Python del d[k]: remove the entry for the key. -/
def dictDel {α : Type} : List (String × α) → String → List (String × α)
  | [], _ => []
  | (k', v) :: rest, k =>
      if k' == k then dictDel rest k else (k', v) :: dictDel rest k

/-- One stored OTP record: the code and its absolute expiry timestamp. -/
structure OtpRecord where
  otp : Int
  expires_at : Int
deriving DecidableEq

/-- The persisted OTP mapping of otp_storage.json, contact email to record. -/
abbrev OtpStore := List (String × OtpRecord)

def OTP_EXPIRY_MINUTES : Int := 10

/-- clean_expired_otps from main.py: load the store, keep exactly the
records whose expires_at is strictly above the current time, persist
the filtered mapping and return it. The returned mapping is also the
new persisted state. -/
def clean_expired_otps (now : Int) (store : OtpStore) : OtpStore :=
  store.filter (fun p => decide (p.2.expires_at > now))

/-- Outcome of a handler: normal JSON response, HTTPException with a
status and detail, or an exception that escapes the handler uncaught. -/
inductive HandlerResult where
  | ok (message : String)
  | httpError (status : Nat) (detail : String)
  | pyError (exn : String)
deriving DecidableEq

/-- verify_otp from main.py. t1 is the clock read inside
clean_expired_otps, t2 the clock read at the expiry re-check. Returns
the outcome together with the persisted OTP store. int(data.otp) is
evaluated only on the path that compares codes; when it fails the
ValueError propagates out of the handler uncaught. -/
def verify_otp (store0 : OtpStore) (t1 t2 : Int) (ngo_email otp : String) :
    HandlerResult × OtpStore :=
  match dictGet (clean_expired_otps t1 store0) ngo_email with
  | none =>
      (.httpError 400 "No OTP request found or OTP expired", clean_expired_otps t1 store0)
  | some stored_otp_data =>
      if stored_otp_data.expires_at < t2 then
        (.httpError 400 "OTP expired. Please request a new one.",
          dictDel (clean_expired_otps t1 store0) ngo_email)
      else
        match pyInt otp with
        | none => (.pyError "ValueError", clean_expired_otps t1 store0)
        | some n =>
            if stored_otp_data.otp ≠ n then
              (.httpError 400 "Invalid OTP", clean_expired_otps t1 store0)
            else
              (.ok "OTP verified successfully",
                dictDel (clean_expired_otps t1 store0) ngo_email)

/-- Model of random.randint(a, b): an integer drawn from the inclusive
range [a, b], here a function of an explicit entropy parameter. -/
def randint (a b : Int) (entropy : Nat) : Int :=
  a + (entropy : Int) % (b - a + 1)

/-- One row of ngo.csv. -/
structure NgoRow where
  ngo_name : String
  email : String
deriving DecidableEq

abbrev NgoTable := List NgoRow

/-- The dataset membership test of verify_ngo: some row matches both the
name and the email after stripping and lower-casing both sides. -/
def ngoMatches (df : NgoTable) (ngo_name ngo_email : String) : Bool :=
  df.any (fun row =>
    pyNorm row.ngo_name == pyNorm ngo_name && pyNorm row.email == pyNorm ngo_email)

/-- A Firebase account as the handlers see it. -/
structure FirebaseUser where
  uid : String
  display_name : Option String
  email : String
deriving DecidableEq

/-- The external identity provider state, email to account. -/
abbrev AuthStore := List (String × FirebaseUser)

/-- verify_ngo from main.py: dataset check, existing-account check,
clean expired OTPs, generate and store a fresh code expiring
OTP_EXPIRY_MINUTES from now, then send the email. tClean is the clock
inside clean_expired_otps, tGen the clock when the expiry is computed,
sendOk the outcome of send_email. Returns the outcome and the persisted
OTP store. -/
def verify_ngo (df : NgoTable) (accounts : AuthStore) (store0 : OtpStore)
    (tClean tGen : Int) (entropy : Nat) (sendOk : Bool)
    (ngo_name ngo_email : String) : HandlerResult × OtpStore :=
  if !ngoMatches df ngo_name ngo_email then
    (.httpError 401 "Invalid NGO details", store0)
  else
    match dictGet accounts ngo_email with
    | some _ => (.httpError 400 "NGO already registered. Please login.", store0)
    | none =>
        let cleaned := clean_expired_otps tClean store0
        let code := randint 100000 999999 entropy
        let expires_at := tGen + OTP_EXPIRY_MINUTES * 60
        let otp_store := dictSet cleaned ngo_email ⟨code, expires_at⟩
        if sendOk then (.ok "OTP sent successfully", otp_store)
        else (.httpError 500 "Failed to send OTP", otp_store)

/-- Outcome of the signup handler. -/
inductive SignupResult where
  | ok (message uid ngo_name : String)
  | httpError (status : Nat) (detail : String)
deriving DecidableEq

/-- Exceptions that can escape the try block of complete_signup. -/
inductive SignupExn where
  | httpExn (status : Nat) (detail : String)
  | emailExists
deriving DecidableEq

/-- The try block of complete_signup: dataset lookup by email alone,
taking the first matching row as iloc[0] does, raising HTTPException
404 on a miss; then auth.create_user, raising EmailAlreadyExistsError
when the email already has an account, otherwise creating it. -/
def complete_signup_try (df : NgoTable) (accounts : AuthStore) (newUid : String)
    (ngo_email password : String) : Except SignupExn (String × String) × AuthStore :=
  match df.find? (fun row => pyNorm row.email == pyNorm ngo_email) with
  | none => (.error (.httpExn 404 "NGO not found in database"), accounts)
  | some row =>
      if (dictGet accounts ngo_email).isSome then
        (.error .emailExists, accounts)
      else
        (.ok (newUid, row.ngo_name),
          dictSet accounts ngo_email ⟨newUid, some row.ngo_name, ngo_email⟩)

/-- complete_signup from main.py including its exception handling: the
clause for EmailAlreadyExistsError answers 400, and the final blanket
except-Exception clause also catches the HTTPException 404 raised in
the try block, because HTTPException subclasses Exception and this
handler has no isinstance guard re-raising it; the 404 is re-wrapped as
a 500 whose detail embeds str of the exception, which for an
HTTPException is its status and detail. -/
def complete_signup (df : NgoTable) (accounts : AuthStore) (newUid : String)
    (ngo_email password : String) : SignupResult × AuthStore :=
  match complete_signup_try df accounts newUid ngo_email password with
  | (.ok (uid, name), accounts2) => (.ok "NGO registered successfully" uid name, accounts2)
  | (.error .emailExists, accounts2) => (.httpError 400 "Email already registered", accounts2)
  | (.error (.httpExn status detail), accounts2) =>
      (.httpError 500 ("Registration failed: " ++ toString status ++ ": " ++ detail), accounts2)

/-- Outcome of the login handler. -/
inductive LoginResult where
  | ok (message uid ngo_name email : String)
  | httpError (status : Nat) (detail : String)
deriving DecidableEq

/-- login from main.py: look the account up by email; a miss answers 401
Invalid email or password; a hit answers the stored profile, with the
display name defaulted to NGO User. The submitted password is never
read. -/
def login (accounts : AuthStore) (email password : String) : LoginResult :=
  match dictGet accounts email with
  | none => .httpError 401 "Invalid email or password"
  | some user =>
      .ok "Login successful" user.uid (user.display_name.getD "NGO User") user.email

/-! Association-list lemmas for the dict operations. -/

theorem dictGet_filter_some {α : Type} (p : String × α → Bool) (d : List (String × α))
    (k : String) (v : α) (h : dictGet d k = some v) (hp : p (k, v) = true) :
    dictGet (d.filter p) k = some v := by
  induction d with
  | nil => simp [dictGet] at h
  | cons hd tl ih =>
    obtain ⟨k', v'⟩ := hd
    rw [dictGet] at h
    by_cases hk : (k' == k) = true
    · rw [if_pos hk] at h
      obtain rfl : v' = v := by injection h
      obtain rfl : k' = k := by simpa using hk
      rw [List.filter_cons_of_pos hp, dictGet, if_pos hk]
    · rw [if_neg hk] at h
      by_cases hph : p (k', v') = true
      · rw [List.filter_cons_of_pos hph, dictGet, if_neg hk]
        exact ih h
      · rw [List.filter_cons_of_neg (by simpa using hph)]
        exact ih h

theorem dictGet_filter_none {α : Type} (p : String × α → Bool) (d : List (String × α))
    (k : String) (h : dictGet d k = none) :
    dictGet (d.filter p) k = none := by
  induction d with
  | nil => simp [dictGet]
  | cons hd tl ih =>
    obtain ⟨k', v'⟩ := hd
    rw [dictGet] at h
    by_cases hk : (k' == k) = true
    · rw [if_pos hk] at h
      exact absurd h (by simp)
    · rw [if_neg hk] at h
      by_cases hph : p (k', v') = true
      · rw [List.filter_cons_of_pos hph, dictGet, if_neg hk]
        exact ih h
      · rw [List.filter_cons_of_neg (by simpa using hph)]
        exact ih h

theorem dictGet_dictDel_self {α : Type} (d : List (String × α)) (k : String) :
    dictGet (dictDel d k) k = none := by
  induction d with
  | nil => rfl
  | cons hd tl ih =>
    obtain ⟨k', v'⟩ := hd
    by_cases hk : (k' == k) = true
    · rw [dictDel, if_pos hk]
      exact ih
    · rw [dictDel, if_neg hk, dictGet, if_neg hk]
      exact ih

theorem dictGet_dictDel_other {α : Type} (d : List (String × α)) (k other : String)
    (hne : other ≠ k) : dictGet (dictDel d k) other = dictGet d other := by
  induction d with
  | nil => rfl
  | cons hd tl ih =>
    obtain ⟨k', v'⟩ := hd
    by_cases hk : (k' == k) = true
    · have hk' : k' = k := by simpa using hk
      have hno : (k' == other) = false := by
        simp [hk']
        exact fun h => hne h.symm
      rw [dictDel, if_pos hk, dictGet, if_neg (by simp [hno])]
      exact ih
    · rw [dictDel, if_neg hk, dictGet, dictGet]
      by_cases ho : (k' == other) = true
      · rw [if_pos ho, if_pos ho]
      · rw [if_neg ho, if_neg ho]
        exact ih

theorem dictGet_dictSet_self {α : Type} (d : List (String × α)) (k : String) (v : α) :
    dictGet (dictSet d k v) k = some v := by
  induction d with
  | nil => simp [dictSet, dictGet]
  | cons hd tl ih =>
    obtain ⟨k', v'⟩ := hd
    by_cases hk : (k' == k) = true
    · rw [dictSet, if_pos hk, dictGet, if_pos (by simp)]
    · rw [dictSet, if_neg hk, dictGet, if_neg hk]
      exact ih

theorem dictGet_clean_some (st : OtpStore) (t : Int) (k : String) (r : OtpRecord)
    (h : dictGet st k = some r) (hlive : t < r.expires_at) :
    dictGet (clean_expired_otps t st) k = some r :=
  dictGet_filter_some _ st k r h (by simpa using hlive)

theorem dictGet_clean_none (st : OtpStore) (t : Int) (k : String)
    (h : dictGet st k = none) : dictGet (clean_expired_otps t st) k = none :=
  dictGet_filter_none _ st k h

/-- The success path of verify_otp: a pending record surviving the
cleanup, not yet expired at the re-check, and a submitted code parsing
to the stored one. -/
theorem verify_otp_ok (st : OtpStore) (t1 t2 : Int) (email code : String) (r : OtpRecord)
    (hget : dictGet st email = some r)
    (hlive1 : t1 < r.expires_at) (hlive2 : t2 ≤ r.expires_at)
    (hcode : pyInt code = some r.otp) :
    verify_otp st t1 t2 email code
      = (.ok "OTP verified successfully", dictDel (clean_expired_otps t1 st) email) := by
  have hc : dictGet (clean_expired_otps t1 st) email = some r :=
    dictGet_clean_some st t1 email r hget hlive1
  simp only [verify_otp, hc, hcode]
  rw [if_neg (not_lt.mpr hlive2), if_neg (by simp)]

/-- Whatever path verify_otp takes, the persisted store is the cleaned
input store with at most the submitted contact deleted. -/
theorem verify_otp_snd_cases (st : OtpStore) (t1 t2 : Int) (email code : String) :
    (verify_otp st t1 t2 email code).2 = clean_expired_otps t1 st
    ∨ (verify_otp st t1 t2 email code).2 = dictDel (clean_expired_otps t1 st) email := by
  unfold verify_otp
  cases dictGet (clean_expired_otps t1 st) email with
  | none => left; rfl
  | some rr =>
    dsimp only
    by_cases he : rr.expires_at < t2
    · right; rw [if_pos he]
    · rw [if_neg he]
      cases pyInt code with
      | none => left; rfl
      | some n =>
        dsimp only
        by_cases hq : rr.otp ≠ n
        · left; rw [if_pos hq]
        · right; rw [if_neg hq]

/-! Claim theorems. -/

/-- C1: the claim fails on the code. With a pending, non-expired record
for the contact, a non-numeric submitted code makes verify_otp raise an
unhandled ValueError from int(data.otp) instead of answering a clean
error response: the handler is not total on the otp field. -/
theorem C1_malformed_otp_crashes :
    verify_otp [("a@b.org", ⟨123456, 1000⟩)] 0 0 "a@b.org" "abc"
      = (.pyError "ValueError", [("a@b.org", ⟨123456, 1000⟩)]) := by decide

/-- C2: the 404 half of the claim fails on the code. When the contact
email has no dataset match, complete_signup answers 500, not 404: the
HTTPException 404 raised in the try block is caught by the blanket
except-Exception clause and re-wrapped. No account is created. -/
theorem C2_signup_not_found_is_500 (df : NgoTable) (accounts : AuthStore)
    (newUid ngo_email password : String)
    (h : df.find? (fun row => pyNorm row.email == pyNorm ngo_email) = none) :
    complete_signup df accounts newUid ngo_email password
      = (.httpError 500 "Registration failed: 404: NGO not found in database", accounts) := by
  simp [complete_signup, complete_signup_try, h]
  rfl

/-- Witness for C2: a dataset without the requested email. -/
theorem C2_signup_not_found_is_500_witness :
    ([⟨"Helping Hands", "ops@helpinghands.org"⟩] : NgoTable).find?
        (fun row => pyNorm row.email == pyNorm "x@y.org") = none
    ∧ complete_signup [⟨"Helping Hands", "ops@helpinghands.org"⟩] [] "uid1" "x@y.org" "pw"
      = (.httpError 500 "Registration failed: 404: NGO not found in database", []) :=
  ⟨by decide,
   C2_signup_not_found_is_500 _ _ "uid1" "x@y.org" "pw" (by decide)⟩

/-- C3: a pending, non-expired OTP is consumed exactly once: submitting
the matching code succeeds and deletes the record, and an immediately
repeated submission of the same contact and code, at any later clock
reads, answers the no-pending-OTP error. -/
theorem C3_otp_single_use (st : OtpStore) (t1 t2 u1 u2 : Int)
    (email code : String) (r : OtpRecord)
    (hget : dictGet st email = some r)
    (hlive1 : t1 < r.expires_at) (hlive2 : t2 ≤ r.expires_at)
    (hcode : pyInt code = some r.otp) :
    verify_otp st t1 t2 email code
        = (.ok "OTP verified successfully", dictDel (clean_expired_otps t1 st) email)
    ∧ (verify_otp (dictDel (clean_expired_otps t1 st) email) u1 u2 email code).1
        = .httpError 400 "No OTP request found or OTP expired" := by
  refine ⟨verify_otp_ok st t1 t2 email code r hget hlive1 hlive2 hcode, ?_⟩
  have h1 : dictGet (dictDel (clean_expired_otps t1 st) email) email = none :=
    dictGet_dictDel_self _ _
  have h2 : dictGet (clean_expired_otps u1 (dictDel (clean_expired_otps t1 st) email)) email
      = none := dictGet_clean_none _ _ _ h1
  simp [verify_otp, h2]

/-- Witness for C3 at a concrete store, contact and code. -/
theorem C3_otp_single_use_witness :
    dictGet [("a@b.org", (⟨123456, 1000⟩ : OtpRecord))] "a@b.org" = some ⟨123456, 1000⟩
    ∧ (0 : Int) < 1000 ∧ (5 : Int) ≤ 1000 ∧ pyInt "123456" = some 123456
    ∧ (verify_otp [("a@b.org", ⟨123456, 1000⟩)] 0 5 "a@b.org" "123456"
          = (.ok "OTP verified successfully",
            dictDel (clean_expired_otps 0 [("a@b.org", ⟨123456, 1000⟩)]) "a@b.org")
        ∧ (verify_otp (dictDel (clean_expired_otps 0 [("a@b.org", ⟨123456, 1000⟩)]) "a@b.org")
              0 0 "a@b.org" "123456").1
          = .httpError 400 "No OTP request found or OTP expired") :=
  ⟨by decide, by decide, by decide, by decide,
   C3_otp_single_use _ 0 5 0 0 "a@b.org" "123456" ⟨123456, 1000⟩
     (by decide) (by decide) (by decide) (by decide)⟩

/-- C4: a mismatching code answers Invalid OTP and leaves the pending
record in the persisted store, and a later submission of the correct
code within the TTL still succeeds. -/
theorem C4_mismatch_keeps_record (st : OtpStore) (t1 t2 u1 u2 : Int)
    (email wrong right : String) (r : OtpRecord) (w : Int)
    (hget : dictGet st email = some r)
    (hlive1 : t1 < r.expires_at) (hlive2 : t2 ≤ r.expires_at)
    (hwrong : pyInt wrong = some w) (hne : w ≠ r.otp)
    (hlive3 : u1 < r.expires_at) (hlive4 : u2 ≤ r.expires_at)
    (hright : pyInt right = some r.otp) :
    verify_otp st t1 t2 email wrong
        = (.httpError 400 "Invalid OTP", clean_expired_otps t1 st)
    ∧ dictGet (clean_expired_otps t1 st) email = some r
    ∧ verify_otp (clean_expired_otps t1 st) u1 u2 email right
        = (.ok "OTP verified successfully",
          dictDel (clean_expired_otps u1 (clean_expired_otps t1 st)) email) := by
  have hc : dictGet (clean_expired_otps t1 st) email = some r :=
    dictGet_clean_some st t1 email r hget hlive1
  refine ⟨?_, hc, verify_otp_ok _ u1 u2 email right r hc hlive3 hlive4 hright⟩
  simp only [verify_otp, hc, hwrong]
  rw [if_neg (not_lt.mpr hlive2), if_pos (fun h => hne h.symm)]

/-- Witness for C4 at a concrete store, wrong code and right code. -/
theorem C4_mismatch_keeps_record_witness :
    pyInt "999999" = some 999999 ∧ (999999 : Int) ≠ 123456
    ∧ (verify_otp [("a@b.org", (⟨123456, 1000⟩ : OtpRecord))] 0 5 "a@b.org" "999999"
          = (.httpError 400 "Invalid OTP",
            clean_expired_otps 0 [("a@b.org", ⟨123456, 1000⟩)])
        ∧ dictGet (clean_expired_otps 0 [("a@b.org", ⟨123456, 1000⟩)]) "a@b.org"
            = some ⟨123456, 1000⟩
        ∧ verify_otp (clean_expired_otps 0 [("a@b.org", ⟨123456, 1000⟩)]) 0 5 "a@b.org" "123456"
            = (.ok "OTP verified successfully",
              dictDel
                (clean_expired_otps 0 (clean_expired_otps 0 [("a@b.org", ⟨123456, 1000⟩)]))
                "a@b.org")) :=
  ⟨by decide, by decide,
   C4_mismatch_keeps_record _ 0 5 0 5 "a@b.org" "999999" "123456" ⟨123456, 1000⟩ 999999
     (by decide) (by decide) (by decide) (by decide) (by decide)
     (by decide) (by decide) (by decide)⟩

/-- C5: clean_expired_otps keeps exactly the records whose expiry is
still in the future at the current time, and persists and returns that
filtered mapping; on a mapping with one expired and one live record it
returns only the live one. -/
theorem C5_clean_expired_filters (now : Int) (st : OtpStore) (k : String) (r : OtpRecord) :
    ((k, r) ∈ clean_expired_otps now st ↔ (k, r) ∈ st ∧ now < r.expires_at)
    ∧ clean_expired_otps 100 [("dead@x.org", ⟨111111, 50⟩), ("live@x.org", ⟨222222, 200⟩)]
        = [("live@x.org", ⟨222222, 200⟩)] := by
  constructor
  · simp [clean_expired_otps, List.mem_filter]
  · decide

/-- C6: when a verification request reaches code generation, the code is
a six-digit value in the inclusive range from 100000 to 999999, the
expiry is the generation-time clock plus exactly 10 minutes, and the
record is stored under the contact email, whatever record the contact
had before. -/
theorem C6_fresh_otp_record (df : NgoTable) (accounts : AuthStore) (st : OtpStore)
    (tClean tGen : Int) (entropy : Nat) (sendOk : Bool) (ngo_name ngo_email : String)
    (hmatch : ngoMatches df ngo_name ngo_email = true)
    (hnew : dictGet accounts ngo_email = none) :
    100000 ≤ randint 100000 999999 entropy
    ∧ randint 100000 999999 entropy ≤ 999999
    ∧ dictGet (verify_ngo df accounts st tClean tGen entropy sendOk ngo_name ngo_email).2
          ngo_email
        = some ⟨randint 100000 999999 entropy, tGen + OTP_EXPIRY_MINUTES * 60⟩ := by
  refine ⟨?_, ?_, ?_⟩
  · unfold randint
    omega
  · unfold randint
    omega
  · cases sendOk <;> simp [verify_ngo, hmatch, hnew, dictGet_dictSet_self]

/-- Witness for C6: a matched dataset row, no prior account, and a prior
OTP record for the contact that the fresh one overwrites. -/
theorem C6_fresh_otp_record_witness :
    ngoMatches [⟨"Helping Hands", "ops@helpinghands.org"⟩]
        "Helping Hands" "ops@helpinghands.org" = true
    ∧ dictGet ([] : AuthStore) "ops@helpinghands.org" = none
    ∧ (100000 ≤ randint 100000 999999 7
        ∧ randint 100000 999999 7 ≤ 999999
        ∧ dictGet (verify_ngo [⟨"Helping Hands", "ops@helpinghands.org"⟩] []
              [("ops@helpinghands.org", ⟨111111, 5⟩)] 0 0 7 true
              "Helping Hands" "ops@helpinghands.org").2 "ops@helpinghands.org"
            = some ⟨randint 100000 999999 7, 0 + OTP_EXPIRY_MINUTES * 60⟩) :=
  ⟨by decide, rfl,
   C6_fresh_otp_record _ _ _ 0 0 7 true "Helping Hands" "ops@helpinghands.org"
     (by decide) rfl⟩

/-- C7: when the checks pass but the email send fails, the handler
answers the 500 notification failure while the freshly stored OTP
record for the contact stays in the persisted store. -/
theorem C7_send_failure_keeps_record (df : NgoTable) (accounts : AuthStore) (st : OtpStore)
    (tClean tGen : Int) (entropy : Nat) (ngo_name ngo_email : String)
    (hmatch : ngoMatches df ngo_name ngo_email = true)
    (hnew : dictGet accounts ngo_email = none) :
    (verify_ngo df accounts st tClean tGen entropy false ngo_name ngo_email).1
        = .httpError 500 "Failed to send OTP"
    ∧ dictGet (verify_ngo df accounts st tClean tGen entropy false ngo_name ngo_email).2
          ngo_email
        = some ⟨randint 100000 999999 entropy, tGen + OTP_EXPIRY_MINUTES * 60⟩ := by
  constructor <;> simp [verify_ngo, hmatch, hnew, dictGet_dictSet_self]

/-- Witness for C7: a matched row, no prior account, failing send. -/
theorem C7_send_failure_keeps_record_witness :
    ngoMatches [⟨"Helping Hands", "ops@helpinghands.org"⟩]
        "Helping Hands" "ops@helpinghands.org" = true
    ∧ dictGet ([] : AuthStore) "ops@helpinghands.org" = none
    ∧ ((verify_ngo [⟨"Helping Hands", "ops@helpinghands.org"⟩] [] [] 0 0 7 false
          "Helping Hands" "ops@helpinghands.org").1
        = .httpError 500 "Failed to send OTP"
      ∧ dictGet (verify_ngo [⟨"Helping Hands", "ops@helpinghands.org"⟩] [] [] 0 0 7 false
            "Helping Hands" "ops@helpinghands.org").2 "ops@helpinghands.org"
          = some ⟨randint 100000 999999 7, 0 + OTP_EXPIRY_MINUTES * 60⟩) :=
  ⟨by decide, rfl,
   C7_send_failure_keeps_record _ _ _ 0 0 7 "Helping Hands" "ops@helpinghands.org"
     (by decide) rfl⟩

/-- C8: the login outcome never depends on the submitted password: two
requests with the same email and different passwords answer the same
result, and that result is 401 when the email has no account and the
stored profile when it has one. -/
theorem C8_login_ignores_password (accounts : AuthStore) (email p1 p2 : String) :
    login accounts email p1 = login accounts email p2
    ∧ login accounts email p1
        = (match dictGet accounts email with
          | none => .httpError 401 "Invalid email or password"
          | some user =>
              .ok "Login successful" user.uid (user.display_name.getD "NGO User") user.email) :=
  ⟨rfl, rfl⟩

/-- C9: when the dataset check fails or the account-existence check
trips, verify_ngo answers that error with the OTP store completely
unchanged: the handler touches the store only after both checks pass. -/
theorem C9_failed_checks_leave_store (df : NgoTable) (accounts : AuthStore) (st : OtpStore)
    (tClean tGen : Int) (entropy : Nat) (sendOk : Bool) (ngo_name ngo_email : String)
    (h : ngoMatches df ngo_name ngo_email = false
        ∨ (dictGet accounts ngo_email).isSome = true) :
    (verify_ngo df accounts st tClean tGen entropy sendOk ngo_name ngo_email).2 = st
    ∧ ∀ m, (verify_ngo df accounts st tClean tGen entropy sendOk ngo_name ngo_email).1
        ≠ HandlerResult.ok m := by
  rcases h with h | h
  · simp [verify_ngo, h]
  · cases hm : ngoMatches df ngo_name ngo_email with
    | false => simp [verify_ngo, hm]
    | true =>
      cases hg : dictGet accounts ngo_email with
      | none => rw [hg] at h; simp at h
      | some u => simp [verify_ngo, hm, hg]

/-- Witness for C9: an empty dataset, so the first check fails. -/
theorem C9_failed_checks_leave_store_witness :
    (ngoMatches [] "Typo Org" "x@y.org" = false
        ∨ (dictGet ([] : AuthStore) "x@y.org").isSome = true)
    ∧ ((verify_ngo [] [] [("a@b.org", ⟨111111, 5⟩)] 0 0 0 true "Typo Org" "x@y.org").2
          = [("a@b.org", ⟨111111, 5⟩)]
      ∧ ∀ m, (verify_ngo [] [] [("a@b.org", ⟨111111, 5⟩)] 0 0 0 true "Typo Org" "x@y.org").1
          ≠ HandlerResult.ok m) :=
  ⟨Or.inl rfl,
   C9_failed_checks_leave_store _ _ _ 0 0 0 true "Typo Org" "x@y.org" (Or.inl rfl)⟩

/-- C10: on every path of verify_otp, in particular successful
consumption and the expired-path deletion, at most the submitted
contact is removed: any other contact whose record survives the
cleanup, that is whose expiry is still ahead of the cleanup clock, is
still present with the same code and expiry afterwards. -/
theorem C10_other_contacts_preserved (st : OtpStore) (t1 t2 : Int)
    (email code other : String) (r' : OtpRecord)
    (hne : other ≠ email)
    (hget : dictGet st other = some r')
    (hlive : t1 < r'.expires_at) :
    dictGet (verify_otp st t1 t2 email code).2 other = some r' := by
  have hc : dictGet (clean_expired_otps t1 st) other = some r' :=
    dictGet_clean_some st t1 other r' hget hlive
  rcases verify_otp_snd_cases st t1 t2 email code with h | h
  · rw [h]; exact hc
  · rw [h, dictGet_dictDel_other _ email other hne]; exact hc

/-- Witness for C10: consuming one contact leaves the other contact's
live record intact. -/
theorem C10_other_contacts_preserved_witness :
    ("y@b.org" : String) ≠ "x@a.org"
    ∧ dictGet [("x@a.org", (⟨111111, 1000⟩ : OtpRecord)), ("y@b.org", ⟨222222, 1000⟩)]
        "y@b.org" = some ⟨222222, 1000⟩
    ∧ (0 : Int) < 1000
    ∧ dictGet (verify_otp [("x@a.org", ⟨111111, 1000⟩), ("y@b.org", ⟨222222, 1000⟩)]
          0 5 "x@a.org" "111111").2 "y@b.org" = some ⟨222222, 1000⟩ :=
  ⟨by decide, by decide, by decide,
   C10_other_contacts_preserved _ 0 5 "x@a.org" "111111" "y@b.org" ⟨222222, 1000⟩
     (by decide) (by decide) (by decide)⟩
